import Mathlib

/-!
# Verification of the fragcrawl extraction-and-normalization pipeline

Shallow embedding of the core pipeline of this repository:
the per-URL normalizer `process_url` (src/api.py, duplicated in
src/app.py `extract_fragrance_data`) and the batch orchestrator
`scrape_fragrances` (src/api.py).

Python strings are modelled as `List Char`; Python dictionaries whose
keys come from the fixed extraction schema are modelled as structures
with `Option` fields (a key is present iff the field is `some`).
The external rendering collaborator (crawl4ai) is modelled as an
oracle function from URLs to fetch outcomes; the standard-library URL
parsing (`urlparse` + `unquote`) is modelled by a `Url` value carrying
both the full URL string and its decoded path.
-/

/-- Python strings are modelled as lists of characters. -/
abbrev Str := List Char

/-- Python `s.split(sep)` for a single-character separator `sep`:
splits at every occurrence, keeping empty pieces, and returns at least
one piece (`"".split(c) == [""]`). -/
def splitOnChar (sep : Char) : Str → List Str
  | [] => [[]]
  | c :: rest =>
    let r := splitOnChar sep rest
    if c = sep then [] :: r
    else
      match r with
      | [] => [[c]]
      | h :: t => (c :: h) :: t

/-- The characters of `s` strictly before the first occurrence of the
substring `sep`; all of `s` when `sep` does not occur.  This models
Python `s.split(sep)[0]` for a non-empty separator. -/
def takeUntilSub (sep : Str) : Str → Str
  | [] => []
  | c :: rest => if sep.isPrefixOf (c :: rest) then [] else c :: takeUntilSub sep rest

/-- Fuel-driven worker for `pyReplace`; the fuel bounds the number of
consumed characters, so `fuel = s.length` always suffices. -/
def pyReplaceFuel (old new : Str) : Nat → Str → Str
  | 0, s => s
  | _ + 1, [] => []
  | fuel + 1, c :: rest =>
    if !old.isEmpty && old.isPrefixOf (c :: rest) then
      new ++ pyReplaceFuel old new fuel (List.drop (old.length - 1) rest)
    else
      c :: pyReplaceFuel old new fuel rest

/-- Python `s.replace(old, new)` for a non-empty `old`: one left-to-right
pass replacing every non-overlapping occurrence, resuming after each
replaced occurrence. -/
def pyReplace (s old new : Str) : Str := pyReplaceFuel old new s.length s

/-- Python `s.isdigit()` restricted to ASCII digits: true iff `s` is
non-empty and every character is a digit. -/
def pyIsDigit (s : Str) : Bool := !s.isEmpty && s.all Char.isDigit

/-- One entry of the raw `accords` list, as extracted by the `list`
schema field: a mapping that should carry a `"text"` key but, in a
malformed record, may lack it. -/
structure AccordEntry where
  text : Option Str
deriving DecidableEq

/-- One extracted note entry (`nested_list` schema fields): a mapping
with optional `"name"` and `"image"` keys. -/
structure NoteEntry where
  name : Option Str
  image : Option Str
deriving DecidableEq

/-- The raw semi-structured record produced by the structural extractor
for one page: one optional field per entry of the CSS schema in
src/api.py (`css_schema`).  A key is present in the Python dict iff the
field is `some`. -/
structure RawItem where
  title : Option Str
  sex : Option Str
  image : Option Str
  accords : Option (List AccordEntry)
  has_top_notes : Option Bool
  has_middle_notes : Option Bool
  has_base_notes : Option Bool
  top_notes : Option (List NoteEntry)
  middle_notes : Option (List NoteEntry)
  base_notes : Option (List NoteEntry)
  unclassified_notes : Option (List NoteEntry)
deriving DecidableEq

/-- The raw record with no keys at all. -/
def rawEmpty : RawItem :=
  { title := none, sex := none, image := none, accords := none,
    has_top_notes := none, has_middle_notes := none, has_base_notes := none,
    top_notes := none, middle_notes := none, base_notes := none,
    unclassified_notes := none }

/-- The `notes` mapping assembled by the normalizer: a dict whose four
possible keys are `"top"`, `"middle"`, `"base"`, `"unclassified"`; a key
is present iff the field is `some`. -/
structure Notes where
  top : Option (List NoteEntry)
  middle : Option (List NoteEntry)
  base : Option (List NoteEntry)
  unclassified : Option (List NoteEntry)
deriving DecidableEq

/-- The normalized per-URL record (the `FragranceData` pydantic model of
src/api.py): the processed dict returned by `process_url` on success. -/
structure DomainItem where
  title : Option Str
  sex : Option Str
  image : Option Str
  accords : Option (List Str)
  notes : Notes
  house : Option Str
  perfume_name : Option Str
deriving DecidableEq

/-- A URL, carrying the full URL text and the decoded path that
`unquote(urlparse(url).path)` yields for it (URL parsing itself is the
Python standard library, outside the embedded core). -/
structure Url where
  full : Str
  decodedPath : Str
deriving DecidableEq

/-- `[accord["text"] for accord in item["accords"]]` (src/api.py line
210): the text values in original order; a `KeyError` — modelled as
`Except.error` carrying the missing key name — if some entry lacks
`"text"`. -/
def flattenAccords : List AccordEntry → Except Str (List Str)
  | [] => Except.ok []
  | a :: rest =>
    match a.text with
    | none => Except.error ("text".toList)
    | some t =>
      match flattenAccords rest with
      | Except.ok ts => Except.ok (t :: ts)
      | Except.error e => Except.error e

/-- The accord-flattening step: `if "accords" in item: item["accords"] =
[accord["text"] for accord in item["accords"]]`.  An absent key stays
absent. -/
def accordsStep (item : RawItem) : Except Str (Option (List Str)) :=
  match item.accords with
  | none => Except.ok none
  | some l =>
    match flattenAccords l with
    | Except.ok ts => Except.ok (some ts)
    | Except.error e => Except.error e

/-- `has_classified_notes` (src/api.py lines 216–222): true iff any of
the three `has_*` flags is present and truthy. -/
def hasClassifiedNotes (item : RawItem) : Bool :=
  item.has_top_notes.getD false || item.has_middle_notes.getD false ||
    item.has_base_notes.getD false

/-- `if key in item: if item[key]: notes[cat] = item[key]` — the key
`cat` is set iff the raw field is present and non-empty. -/
def keepNonempty (o : Option (List NoteEntry)) : Option (List NoteEntry) :=
  match o with
  | some l => if l.isEmpty then none else some l
  | none => none

/-- The note-classification step (src/api.py lines 212–257), producing
the `notes` dict.  `unclassified` is set only when no `has_*` flag was
truthy and `unclassified_notes` is present and non-empty. -/
def notesStep (item : RawItem) : Notes :=
  { top := keepNonempty item.top_notes
    middle := keepNonempty item.middle_notes
    base := keepNonempty item.base_notes
    unclassified :=
      match item.unclassified_notes with
      | some l => if !hasClassifiedNotes item && !l.isEmpty then some l else none
      | none => none }

/-- `path_parts = unquote(parsed_url.path).split('/')`. -/
def pathParts (path : Str) : List Str := splitOnChar '/' path

/-- `len(path_parts) >= 4 and path_parts[1] == "perfume"`. -/
def urlMatched (path : Str) : Bool :=
  4 ≤ (pathParts path).length && (pathParts path).getD 1 [] = ("perfume".toList)

/-- `house = path_parts[2].replace('-', ' ')` (src/api.py line 264),
applied to segment 2 of the path. -/
def houseOf (seg : Str) : Str := pyReplace seg (['-']) ([' '])

/-- `perfume_name` derivation (src/api.py lines 267–269): take the part
of segment 3 before the first `.html`, split it on `-`, drop the last
token iff it is entirely numeric, and join with single spaces. -/
def perfumeNameOf (seg : Str) : Str :=
  let raw := takeUntilSub (".html".toList) seg
  let toks := splitOnChar '-' raw
  List.intercalate ([' ']) (if pyIsDigit (toks.getLastD []) then toks.dropLast else toks)

/-- The title-cleanup step (src/api.py lines 276–277), run only when the
URL path matched: when `sex` is present and non-empty and `title` is
present, `item["title"] = item["title"].replace(item["sex"], "")`. -/
def cleanTitle (item : RawItem) : Option Str :=
  match item.sex, item.title with
  | some s, some t => if s.isEmpty then some t else some (pyReplace t s [])
  | _, _ => item.title

/-- Assembly of the normalized record from the raw item, the flattened
accords and the source URL, mirroring src/api.py lines 212–279. -/
def assemble (url : Url) (item : RawItem) (acc : Option (List Str)) : DomainItem :=
  if urlMatched url.decodedPath then
    { title := cleanTitle item, sex := item.sex, image := item.image,
      accords := acc, notes := notesStep item,
      house := some (houseOf ((pathParts url.decodedPath).getD 2 [])),
      perfume_name := some (perfumeNameOf ((pathParts url.decodedPath).getD 3 [])) }
  else
    { title := item.title, sex := item.sex, image := item.image,
      accords := acc, notes := notesStep item,
      house := none, perfume_name := none }

/-- The normalizer: the pure transform of src/api.py lines 206–279
applied to `data[0]`.  The only statement in that region that can raise
is the accord flattening (`KeyError` on a malformed entry); its error
propagates to the enclosing per-URL handler. -/
def normalizeItem (url : Url) (item : RawItem) : Except Str DomainItem :=
  match accordsStep item with
  | Except.ok acc => Except.ok (assemble url item acc)
  | Except.error e => Except.error e

/-- Outcome of the external fetch + JSON-parse stages for one URL:
crawl failure (`result.success` false), undecodable extracted content
(`json.JSONDecodeError`), or a parsed list of raw records. -/
inductive FetchResult where
  | crawlFailed (errorMessage : Str)
  | badJson (errorMessage : Str)
  | extracted (data : List RawItem)
deriving DecidableEq

/-- The value `process_url` returns: either the processed item or an
error dict `{"error": message}` (modelled by the message). -/
inductive PUResult where
  | ok (item : DomainItem)
  | err (message : Str)
deriving DecidableEq

/-- `f"Failed to crawl {url}: {e}"`. -/
def crawlFailMsg (url : Url) (e : Str) : Str :=
  ("Failed to crawl ".toList) ++ url.full ++ (": ".toList) ++ e

/-- `f"Failed to parse JSON from {url}: {e}"`. -/
def badJsonMsg (url : Url) (e : Str) : Str :=
  ("Failed to parse JSON from ".toList) ++ url.full ++ (": ".toList) ++ e

/-- `f"No data extracted from {url}"`. -/
def noDataMsg (url : Url) : Str :=
  ("No data extracted from ".toList) ++ url.full

/-- `f"Error processing {url}: {e}"` — the message of the catch-all
`except Exception` handler of `process_url`. -/
def errProcessingMsg (url : Url) (e : Str) : Str :=
  ("Error processing ".toList) ++ url.full ++ (": ".toList) ++ e

/-- `process_url` (src/api.py lines 174–281): fetch, parse, check for
emptiness, normalize `data[0]`; every failure is converted into an
error dict for this URL only.  The fetch collaborator is an oracle
argument. -/
def process_url (fetch : Url → FetchResult) (url : Url) : PUResult :=
  match fetch url with
  | FetchResult.crawlFailed e => PUResult.err (crawlFailMsg url e)
  | FetchResult.badJson e => PUResult.err (badJsonMsg url e)
  | FetchResult.extracted [] => PUResult.err (noDataMsg url)
  | FetchResult.extracted (item :: _) =>
    match normalizeItem url item with
    | Except.ok d => PUResult.ok d
    | Except.error e => PUResult.err (errProcessingMsg url e)

/-- One entry of the `errors` list: the dict `{"error": message}`
appended by `scrape_fragrances`. -/
structure ErrorEntry where
  error : Str
deriving DecidableEq

/-- The `ScrapeResponse` model of src/api.py. -/
structure ScrapeResponse where
  results : List DomainItem
  errors : List ErrorEntry
deriving DecidableEq

/-- Projection used by the partition loop: a successful outcome. -/
def okPart : PUResult → Option DomainItem
  | PUResult.ok d => some d
  | PUResult.err _ => none

/-- Projection used by the partition loop: an error outcome, wrapped as
the `{"error": message}` dict. -/
def errPart : PUResult → Option ErrorEntry
  | PUResult.ok _ => none
  | PUResult.err m => some ⟨m⟩

/-- `scrape_fragrances` (src/api.py lines 283–317): run `process_url`
for every URL (`asyncio.gather` keeps input order) and partition the
outcomes on the presence of the `"error"` key. -/
def scrape_fragrances (fetch : Url → FetchResult) (urls : List Url) : ScrapeResponse :=
  let processed := urls.map (process_url fetch)
  { results := processed.filterMap okPart
    errors := processed.filterMap errPart }

deriving instance DecidableEq for Except

/-! ## Spec-side definitions

These follow the wording of the specification / claims, to be compared
with the definitions embedded from the source. -/

/-- Spec wording for the `house` derivation: segment 2 "with `-`
replaced by space". -/
def spec_house (seg : Str) : Str := seg.map fun c => if c = '-' then ' ' else c

/-- Spec wording: "if the final `-`-delimited token is entirely numeric,
drop it". -/
def spec_dropTrailingId (toks : List Str) : List Str :=
  if toks.getLastD [] ≠ [] ∧ ∀ c ∈ toks.getLastD [], c.isDigit = true then
    toks.dropLast
  else toks

/-- The `perfumeName` derivation in the spec's wording, with the
segment truncated at the first occurrence of `.html`. -/
def spec_perfumeName (seg : Str) : Str :=
  List.intercalate ([' ']) (spec_dropTrailingId (splitOnChar '-' (takeUntilSub (".html".toList) seg)))

/-- Claim C5's literal wording for the `.html` step: strip `.html` only
when it is a suffix of the segment. -/
def stripHtmlSuffix (s : Str) : Str :=
  if (".html".toList).isSuffixOf s then s.take (s.length - 5) else s

/-- `perfumeName` as claim C5 literally states it (suffix-strip instead
of truncation at the first occurrence). -/
def claimC5_perfumeName (seg : Str) : Str :=
  List.intercalate ([' ']) (spec_dropTrailingId (splitOnChar '-' (stripHtmlSuffix seg)))

/-- Claim C2's literal wording for title cleanup: remove exactly the
first occurrence of `pat`. -/
def removeFirstOcc (pat : Str) : Str → Str
  | [] => []
  | c :: rest =>
    if !pat.isEmpty && pat.isPrefixOf (c :: rest) then
      List.drop (pat.length - 1) rest
    else c :: removeFirstOcc pat rest

/-! ## Concrete inputs and outputs used by witnesses and counterexamples -/

/-- A note entry `{"name": "Musk", "image": "m.jpg"}`. -/
def muskNote : NoteEntry := { name := some ("Musk".toList), image := some ("m.jpg".toList) }

/-- A note entry `{"name": "Bergamot", "image": "a.jpg"}`. -/
def bergamotNote : NoteEntry :=
  { name := some ("Bergamot".toList), image := some ("a.jpg".toList) }

/-- The accord entry `{"text": "Woody"}`. -/
def accordWoody : AccordEntry := { text := some ("Woody".toList) }

/-- The accord entry `{"text": "Spicy"}`. -/
def accordSpicy : AccordEntry := { text := some ("Spicy".toList) }

/-- A malformed accord entry with no `"text"` key. -/
def accordNoText : AccordEntry := { text := none }

/-- The Zino Davidoff example URL of the spec. -/
def u2w : Url :=
  { full := ("https://www.fragrantica.com/perfume/Davidoff/Zino-Davidoff-590.html".toList),
    decodedPath := ("/perfume/Davidoff/Zino-Davidoff-590.html".toList) }

/-- Raw record carrying the spec's title-cleanup example. -/
def item2w : RawItem :=
  { rawEmpty with sex := some ("for women and men".toList),
                  title := some ("Zino for women and men".toList) }

/-- Normalized record for `item2w` at `u2w`. -/
def d2w : DomainItem :=
  { title := some ("Zino ".toList), sex := some ("for women and men".toList),
    image := none, accords := none,
    notes := { top := none, middle := none, base := none, unclassified := none },
    house := some ("Davidoff".toList), perfume_name := some ("Zino Davidoff".toList) }

/-- A matching URL whose title contains the `sex` string twice. -/
def u2c : Url :=
  { full := ("https://www.fragrantica.com/perfume/H/X-1.html".toList),
    decodedPath := ("/perfume/H/X-1.html".toList) }

/-- Raw record whose title contains two occurrences of the `sex` string. -/
def item2c : RawItem :=
  { rawEmpty with sex := some ("for men".toList),
                  title := some ("for men X for men".toList) }

/-- Normalized record for `item2c` at `u2c`: both occurrences removed. -/
def d2c : DomainItem :=
  { title := some (" X ".toList), sex := some ("for men".toList),
    image := none, accords := none,
    notes := { top := none, middle := none, base := none, unclassified := none },
    house := some ("H".toList), perfume_name := some ("X".toList) }

/-- A URL whose path does not match the `/perfume/...` shape. -/
def u3w : Url := { full := ("https://example.com/x".toList), decodedPath := ("/x".toList) }

/-- Raw record with only unclassified notes and no flags. -/
def item3w : RawItem := { rawEmpty with unclassified_notes := some [muskNote] }

/-- Normalized record for `item3w` at `u3w`. -/
def d3w : DomainItem :=
  { title := none, sex := none, image := none, accords := none,
    notes := { top := none, middle := none, base := none, unclassified := some [muskNote] },
    house := none, perfume_name := none }

/-- A URL whose path does not match the `/perfume/...` shape. -/
def u3c : Url := { full := ("https://example.com/y".toList), decodedPath := ("/y".toList) }

/-- Raw record with non-empty `top_notes` but no `has_*` flag, plus
non-empty `unclassified_notes`. -/
def item3c : RawItem :=
  { rawEmpty with top_notes := some [bergamotNote],
                  unclassified_notes := some [muskNote] }

/-- Normalized record for `item3c` at `u3c`: `top` and `unclassified`
co-occur in `notes`. -/
def d3c : DomainItem :=
  { title := none, sex := none, image := none, accords := none,
    notes := { top := some [bergamotNote], middle := none, base := none,
               unclassified := some [muskNote] },
    house := none, perfume_name := none }

/-- A URL whose path does not match the `/perfume/...` shape. -/
def u4w : Url := { full := ("https://example.com/a".toList), decodedPath := ("/a".toList) }

/-- Raw record with the spec's accord-flattening example. -/
def item4w : RawItem := { rawEmpty with accords := some [accordWoody, accordSpicy] }

/-- Normalized record for `item4w` at `u4w`. -/
def d4w : DomainItem :=
  { title := none, sex := none, image := none,
    accords := some [("Woody".toList), ("Spicy".toList)],
    notes := { top := none, middle := none, base := none, unclassified := none },
    house := none, perfume_name := none }

/-- A URL whose path does not match the `/perfume/...` shape. -/
def u4c : Url := { full := ("https://example.com/b".toList), decodedPath := ("/b".toList) }

/-- Normalized record for `rawEmpty` (in particular, absent `accords`)
at `u4c`. -/
def d4c : DomainItem :=
  { title := none, sex := none, image := none, accords := none,
    notes := { top := none, middle := none, base := none, unclassified := none },
    house := none, perfume_name := none }

/-- The Zino Davidoff example URL of the spec (C5 witness). -/
def davUrl : Url :=
  { full := ("https://www.fragrantica.com/perfume/Davidoff/Zino-Davidoff-590.html".toList),
    decodedPath := ("/perfume/Davidoff/Zino-Davidoff-590.html".toList) }

/-- Normalized record for `rawEmpty` at `davUrl`. -/
def davResult : DomainItem :=
  { title := none, sex := none, image := none, accords := none,
    notes := { top := none, middle := none, base := none, unclassified := none },
    house := some ("Davidoff".toList), perfume_name := some ("Zino Davidoff".toList) }

/-- A matching URL whose third segment contains `.html` in the middle
as well as at the end. -/
def u5c : Url :=
  { full := ("https://www.fragrantica.com/perfume/Davidoff/Zino.html-x-9.html".toList),
    decodedPath := ("/perfume/Davidoff/Zino.html-x-9.html".toList) }

/-- Normalized record for `rawEmpty` at `u5c`: the code truncates the
segment at the first `.html`, giving `perfume_name == "Zino"`. -/
def d5c : DomainItem :=
  { title := none, sex := none, image := none, accords := none,
    notes := { top := none, middle := none, base := none, unclassified := none },
    house := some ("Davidoff".toList), perfume_name := some ("Zino".toList) }

/-- A fetch oracle whose extraction matches zero records for every URL. -/
def fetch6w (_ : Url) : FetchResult := FetchResult.extracted []

/-- A URL used with `fetch6w`. -/
def u6w : Url := { full := ("https://example.com/p6w".toList), decodedPath := ("/p6w".toList) }

/-- A fetch oracle whose extraction matches zero records for every URL
(counterexample instance). -/
def fetch6c (_ : Url) : FetchResult := FetchResult.extracted []

/-- A URL used with `fetch6c`. -/
def u6c : Url := { full := ("https://example.com/p6c".toList), decodedPath := ("/p6c".toList) }

/-- A URL whose path does not match the `/perfume/...` shape. -/
def u7w : Url := { full := ("https://example.com/c".toList), decodedPath := ("/c".toList) }

/-- The spec's classified-notes example record: `has_top_notes` true,
non-empty `top_notes`, empty `middle_notes`/`base_notes`, non-empty
`unclassified_notes`. -/
def item7w : RawItem :=
  { rawEmpty with has_top_notes := some true, has_middle_notes := some false,
                  has_base_notes := some false, top_notes := some [bergamotNote],
                  middle_notes := some [], base_notes := some [],
                  unclassified_notes := some [muskNote] }

/-- Normalized record for `item7w` at `u7w`. -/
def d7w : DomainItem :=
  { title := none, sex := none, image := none, accords := none,
    notes := { top := some [bergamotNote], middle := none, base := none,
               unclassified := none },
    house := none, perfume_name := none }

/-- Raw record whose `accords` list has an entry without a `"text"` key. -/
def item8w : RawItem := { rawEmpty with accords := some [accordNoText] }

/-- A fetch oracle returning the malformed record for every URL. -/
def fetch8w (_ : Url) : FetchResult := FetchResult.extracted [item8w]

/-- A URL used with `fetch8w`. -/
def u8w : Url := { full := ("https://example.com/p8".toList), decodedPath := ("/p8".toList) }

/-- A non-matching URL for a record that still has `sex` and `title`. -/
def u9w : Url :=
  { full := ("https://example.com/about".toList), decodedPath := ("/about".toList) }

/-- Raw record with `sex` and `title` present. -/
def item9w : RawItem :=
  { rawEmpty with sex := some ("for men".toList), title := some ("T for men".toList) }

/-- Normalized record for `item9w` at `u9w`: title untouched, no
`house`/`perfume_name`. -/
def d9w : DomainItem :=
  { title := some ("T for men".toList), sex := some ("for men".toList),
    image := none, accords := none,
    notes := { top := none, middle := none, base := none, unclassified := none },
    house := none, perfume_name := none }

/-- A matching URL whose third segment is a bare numeric identifier. -/
def u10w : Url :=
  { full := ("https://www.fragrantica.com/perfume/Some-House/590.html".toList),
    decodedPath := ("/perfume/Some-House/590.html".toList) }

/-- Normalized record for `rawEmpty` at `u10w`: `perfume_name` present
but empty, `house` still derived. -/
def d10w : DomainItem :=
  { title := none, sex := none, image := none, accords := none,
    notes := { top := none, middle := none, base := none, unclassified := none },
    house := some ("Some House".toList), perfume_name := some ("".toList) }

/-! ## Helper lemmas -/

theorem pyReplaceFuel_singleChar (c d : Char) (n : Nat) :
    ∀ s : Str, s.length ≤ n →
      pyReplaceFuel [c] [d] n s = s.map fun x => if x = c then d else x := by
  induction n with
  | zero =>
    intro s hs
    cases s with
    | nil => rfl
    | cons x rest => simp at hs
  | succ n ih =>
    intro s hs
    cases s with
    | nil => rfl
    | cons x rest =>
      have hlen : rest.length ≤ n := by
        simp only [List.length_cons] at hs
        omega
      by_cases hx : x = c
      · subst hx
        simp [pyReplaceFuel, List.isPrefixOf, ih rest hlen]
      · have hcx : ¬ c = x := fun h => hx h.symm
        simp [pyReplaceFuel, List.isPrefixOf, hx, hcx, ih rest hlen]

theorem houseOf_eq_spec (seg : Str) : houseOf seg = spec_house seg :=
  pyReplaceFuel_singleChar '-' ' ' seg.length seg (Nat.le_refl _)

theorem pyIsDigit_iff (t : Str) :
    pyIsDigit t = true ↔ t ≠ [] ∧ ∀ c ∈ t, c.isDigit = true := by
  cases t <;> simp [pyIsDigit, List.all_eq_true]

theorem perfumeNameOf_eq_spec (seg : Str) : perfumeNameOf seg = spec_perfumeName seg := by
  simp only [perfumeNameOf, spec_perfumeName, spec_dropTrailingId]
  exact congrArg _ (if_congr (pyIsDigit_iff _) rfl rfl)

theorem flattenAccords_of_forall (l : List AccordEntry) (h : ∀ a ∈ l, a.text ≠ none) :
    flattenAccords l = Except.ok (l.filterMap AccordEntry.text) := by
  induction l with
  | nil => rfl
  | cons a rest ih =>
    cases hat : a.text with
    | none => exact absurd hat (h a (List.mem_cons_self a rest))
    | some t =>
      have hrest := ih fun b hb => h b (List.mem_cons_of_mem a hb)
      simp [flattenAccords, hat, hrest, List.filterMap_cons]

theorem normalizeItem_ok_iff (url : Url) (item : RawItem) (d : DomainItem) :
    normalizeItem url item = Except.ok d ↔
      ∃ acc, accordsStep item = Except.ok acc ∧ d = assemble url item acc := by
  unfold normalizeItem
  cases h : accordsStep item <;> simp [eq_comm]

theorem assemble_notes (url : Url) (item : RawItem) (acc : Option (List Str)) :
    (assemble url item acc).notes = notesStep item := by
  by_cases hm : urlMatched url.decodedPath = true <;> simp [assemble, hm]

theorem assemble_accords (url : Url) (item : RawItem) (acc : Option (List Str)) :
    (assemble url item acc).accords = acc := by
  by_cases hm : urlMatched url.decodedPath = true <;> simp [assemble, hm]

theorem partitionLength (l : List PUResult) :
    (l.filterMap okPart).length + (l.filterMap errPart).length = l.length := by
  induction l with
  | nil => rfl
  | cons r rest ih =>
    cases r <;> simp [okPart, errPart, List.filterMap_cons] <;> omega

/-! ## Claims -/

/-- C1: For every input sequence of N URLs submitted to the batch scrape
operation, `len(results) + len(errors) == N`, and each input URL
contributes exactly one entry to exactly one of the two sequences: the
results are exactly the successful outcomes of the input URLs in order,
and the errors exactly the failing ones in order, so the outcomes cover
the input set with no duplicates and no omissions. -/
theorem claim_C1 (fetch : Url → FetchResult) (urls : List Url) :
    (scrape_fragrances fetch urls).results.length +
        (scrape_fragrances fetch urls).errors.length = urls.length ∧
    (scrape_fragrances fetch urls).results =
        urls.filterMap (fun u => okPart (process_url fetch u)) ∧
    (scrape_fragrances fetch urls).errors =
        urls.filterMap (fun u => errPart (process_url fetch u)) := by
  refine ⟨?_, ?_, ?_⟩
  · have h := partitionLength (urls.map (process_url fetch))
    simpa [scrape_fragrances] using h
  · simp [scrape_fragrances, List.filterMap_map]
    rfl
  · simp [scrape_fragrances, List.filterMap_map]
    rfl

/-- C6 (amended): for every URL whose extraction step returns a record
list with zero items, `process_url` yields exactly one error entry of
the shape `{"error": message}` — not `{url, message}` — whose message is
`"No data extracted from <url>"` (the URL embedded in the text, not a
separate field), and no result entry. -/
theorem claim_C6 (fetch : Url → FetchResult) (u : Url)
    (h : fetch u = FetchResult.extracted []) :
    process_url fetch u = PUResult.err (noDataMsg u) ∧
    scrape_fragrances fetch [u] = { results := [], errors := [⟨noDataMsg u⟩] } := by
  have h1 : process_url fetch u = PUResult.err (noDataMsg u) := by
    unfold process_url
    rw [h]
  exact ⟨h1, by simp [scrape_fragrances, h1, okPart, errPart]⟩

/-- C6 witness: concrete empty extraction. -/
theorem claim_C6_witness :
    process_url fetch6w u6w = PUResult.err (noDataMsg u6w) ∧
    scrape_fragrances fetch6w [u6w] = { results := [], errors := [⟨noDataMsg u6w⟩] } :=
  claim_C6 fetch6w u6w (by decide)

/-- C6 counterexample: the error entry's only field is `error`, its
message embeds the URL and is not the claimed literal
`"no data extracted"`. -/
theorem claim_C6_counterexample :
    (scrape_fragrances fetch6c [u6c]).errors = [⟨noDataMsg u6c⟩] ∧
    (scrape_fragrances fetch6c [u6c]).results = [] ∧
    noDataMsg u6c ≠ ("no data extracted".toList) := by decide

/-- C8: every failure during a single URL's processing — e.g. an
accords entry missing its `text` key — is caught at the per-URL
boundary and becomes a structured error entry for that URL (part 1),
and the batch outcome decomposes per-URL, so one URL's outcome never
changes any other URL's result (part 2). -/
theorem claim_C8 :
    (∀ (fetch : Url → FetchResult) (url : Url) (item : RawItem)
        (rest : List RawItem) (e : Str),
        fetch url = FetchResult.extracted (item :: rest) →
        normalizeItem url item = Except.error e →
        process_url fetch url = PUResult.err (errProcessingMsg url e)) ∧
    (∀ (fetch : Url → FetchResult) (xs ys : List Url),
        scrape_fragrances fetch (xs ++ ys) =
          { results := (scrape_fragrances fetch xs).results ++
              (scrape_fragrances fetch ys).results,
            errors := (scrape_fragrances fetch xs).errors ++
              (scrape_fragrances fetch ys).errors }) := by
  constructor
  · intro fetch url item rest e hf hn
    unfold process_url
    rw [hf]
    simp [hn]
  · intro fetch xs ys
    simp [scrape_fragrances, List.filterMap_append]

/-- C8 witness: a record whose accords entry lacks `text` becomes a
structured per-URL error. -/
theorem claim_C8_witness :
    process_url fetch8w u8w = PUResult.err (errProcessingMsg u8w ("text".toList)) :=
  claim_C8.1 fetch8w u8w item8w [] ("text".toList) (by decide) (by decide)

/-- C2 (amended): in the title-cleanup step, for every raw record where
the URL-derivation step matched and both `sex` and `title` are present
with `sex` non-empty, the output `title` equals the input title with
every non-overlapping literal occurrence of the `sex` string removed in
one left-to-right pass (Python `str.replace`), not only the first; no
trimming is applied, so the spec's example still yields `"Zino "`. -/
theorem claim_C2 (url : Url) (item : RawItem) (d : DomainItem) (s t : Str)
    (hd : normalizeItem url item = Except.ok d)
    (hm : urlMatched url.decodedPath = true)
    (hs : item.sex = some s) (hsne : s ≠ []) (ht : item.title = some t) :
    d.title = some (pyReplace t s []) := by
  rcases (normalizeItem_ok_iff url item d).1 hd with ⟨acc, hacc, rfl⟩
  cases s with
  | nil => exact absurd rfl hsne
  | cons c cs => simp [assemble, hm, cleanTitle, hs, ht]

/-- C2 witness: the spec's own example, `"Zino for women and men"` with
sex `"for women and men"`, cleans to `"Zino "`. -/
theorem claim_C2_witness :
    d2w.title = some (pyReplace ("Zino for women and men".toList)
      ("for women and men".toList) []) :=
  claim_C2 u2w item2w d2w ("for women and men".toList)
    ("Zino for women and men".toList) (by decide) (by decide) (by decide)
    (by decide) (by decide)

/-- C2 counterexample: with title `"for men X for men"` and sex
`"for men"`, the code removes both occurrences (result `" X "`), while
the claim's first-occurrence removal would give `" X for men"`. -/
theorem claim_C2_counterexample :
    normalizeItem u2c item2c = Except.ok d2c ∧
    d2c.title = some (" X ".toList) ∧
    removeFirstOcc ("for men".toList) ("for men X for men".toList) =
      (" X for men".toList) ∧
    d2c.title ≠ some (removeFirstOcc ("for men".toList)
      ("for men X for men".toList)) := by decide

/-- C3 (amended): the `notes` mapping contains the key `unclassified`
exactly when none of the three `has_*` existence flags is truthy and
`unclassified_notes` is present and non-empty.  The decision is based
on the flags, not on whether `top`/`middle`/`base` are present with
content, so `unclassified` can co-occur with the classified keys when a
flag is missing while the corresponding notes list is non-empty. -/
theorem claim_C3 (url : Url) (item : RawItem) (d : DomainItem) (l : List NoteEntry)
    (hd : normalizeItem url item = Except.ok d) :
    d.notes.unclassified = some l ↔
      hasClassifiedNotes item = false ∧ item.unclassified_notes = some l ∧ l ≠ [] := by
  rcases (normalizeItem_ok_iff url item d).1 hd with ⟨acc, hacc, rfl⟩
  rw [assemble_notes]
  simp only [notesStep]
  cases hu : item.unclassified_notes with
  | none => simp
  | some l2 =>
    cases hcl : hasClassifiedNotes item with
    | true => simp [hcl]
    | false =>
      cases l2 with
      | nil => simp
      | cons n ns =>
        simp [eq_comm, and_comm]
        intro hl
        subst hl
        simp

/-- C3 witness: the spec's unclassified case — all flags false/absent
and non-empty `unclassified_notes` — yields
`notes == {"unclassified": [...]}`. -/
theorem claim_C3_witness :
    d3w.notes.unclassified = some [muskNote] ↔
      hasClassifiedNotes item3w = false ∧
      item3w.unclassified_notes = some [muskNote] ∧ [muskNote] ≠ [] :=
  claim_C3 u3w item3w d3w [muskNote] (by decide)

/-- C3 counterexample: with no `has_*` flag but a non-empty `top_notes`
and a non-empty `unclassified_notes`, the output `notes` contains both
`top` and `unclassified`, falsifying the claimed invariant. -/
theorem claim_C3_counterexample :
    normalizeItem u3c item3c = Except.ok d3c ∧
    d3c.notes.top = some [bergamotNote] ∧
    d3c.notes.unclassified = some [muskNote] := by decide

/-- C4 (amended): in the accord-flattening step, if `accords` is present
as a sequence of `{text: string}` mappings, the output `accords` is the
sequence of their `text` values in original order; if `accords` is
absent, the output `accords` key remains absent (serialized as null) —
it is not replaced by the empty sequence. -/
theorem claim_C4 (url : Url) (item : RawItem) (d : DomainItem)
    (hd : normalizeItem url item = Except.ok d) :
    (item.accords = none → d.accords = none) ∧
    (∀ l, item.accords = some l → (∀ a ∈ l, a.text ≠ none) →
      d.accords = some (l.filterMap AccordEntry.text)) := by
  rcases (normalizeItem_ok_iff url item d).1 hd with ⟨acc, hacc, rfl⟩
  rw [assemble_accords]
  constructor
  · intro h0
    simp [accordsStep, h0] at hacc
    exact hacc.symm
  · intro l hl hall
    simp [accordsStep, hl, flattenAccords_of_forall l hall] at hacc
    exact hacc.symm

/-- C4 witness: the spec's example `[{"text":"Woody"},{"text":"Spicy"}]`
flattens to `["Woody","Spicy"]`. -/
theorem claim_C4_witness :
    d4w.accords = some ([accordWoody, accordSpicy].filterMap AccordEntry.text) :=
  (claim_C4 u4w item4w d4w (by decide)).2 [accordWoody, accordSpicy]
    (by decide) (by decide)

/-- C4 counterexample: with `accords` absent from the raw record, the
output `accords` is absent (`none`), not the empty sequence. -/
theorem claim_C4_counterexample :
    normalizeItem u4c rawEmpty = Except.ok d4c ∧
    d4c.accords = none ∧
    d4c.accords ≠ some [] := by decide

/-- C5 (amended): for every source URL whose decoded path, split on
`/`, has at least 4 segments with segment 1 equal to `perfume`, the
normalizer sets `house` to segment 2 with `-` replaced by space, and
`perfumeName` from segment 3 truncated at the first occurrence of
`.html` (everything from the first `.html` on is removed — not merely a
trailing `.html` suffix stripped), split on `-`, the final token
dropped iff entirely numeric, joined with single spaces; the path
`/perfume/Davidoff/Zino-Davidoff-590.html` still yields house
`"Davidoff"` and perfumeName `"Zino Davidoff"`. -/
theorem claim_C5 (url : Url) (item : RawItem) (d : DomainItem)
    (hd : normalizeItem url item = Except.ok d)
    (hm : urlMatched url.decodedPath = true) :
    d.house = some (spec_house ((pathParts url.decodedPath).getD 2 [])) ∧
    d.perfume_name = some (spec_perfumeName ((pathParts url.decodedPath).getD 3 [])) := by
  rcases (normalizeItem_ok_iff url item d).1 hd with ⟨acc, hacc, rfl⟩
  rw [← houseOf_eq_spec, ← perfumeNameOf_eq_spec]
  simp [assemble, hm]

/-- C5 witness: the Davidoff example of the spec. -/
theorem claim_C5_witness :
    davResult.house = some (spec_house ((pathParts davUrl.decodedPath).getD 2 [])) ∧
    davResult.perfume_name =
      some (spec_perfumeName ((pathParts davUrl.decodedPath).getD 3 [])) :=
  claim_C5 davUrl rawEmpty davResult (by decide) (by decide)

/-- C5 counterexample: on path `/perfume/Davidoff/Zino.html-x-9.html`
the code truncates segment 3 at the first `.html` and derives
`perfume_name == "Zino"`, while the claim's suffix-stripping reading
would derive `"Zino.html x"`. -/
theorem claim_C5_counterexample :
    normalizeItem u5c rawEmpty = Except.ok d5c ∧
    d5c.perfume_name = some ("Zino".toList) ∧
    claimC5_perfumeName ((pathParts u5c.decodedPath).getD 3 []) =
      ("Zino.html x".toList) ∧
    d5c.perfume_name ≠
      some (claimC5_perfumeName ((pathParts u5c.decodedPath).getD 3 [])) := by decide

/-- C7: in the note-classification step, each of
`top_notes`/`middle_notes`/`base_notes` that is present and non-empty
is placed under `notes["top"|"middle"|"base"]` with element order
preserved (list equality), and when any `has_*` flag is truthy a
non-empty `unclassified_notes` is discarded — no `unclassified` key.
The raw notes fields, the three flags and `unclassified_notes` never
appear in the output: `DomainItem` (mirroring the pydantic
`FragranceData`) has no such fields, matching their unconditional
deletion in the code. -/
theorem claim_C7 (url : Url) (item : RawItem) (d : DomainItem)
    (hd : normalizeItem url item = Except.ok d) :
    (∀ l, item.top_notes = some l → l ≠ [] → d.notes.top = some l) ∧
    (∀ l, item.middle_notes = some l → l ≠ [] → d.notes.middle = some l) ∧
    (∀ l, item.base_notes = some l → l ≠ [] → d.notes.base = some l) ∧
    (hasClassifiedNotes item = true → d.notes.unclassified = none) := by
  rcases (normalizeItem_ok_iff url item d).1 hd with ⟨acc, hacc, rfl⟩
  rw [assemble_notes]
  refine ⟨?_, ?_, ?_, ?_⟩
  · intro l hl hne
    simp [notesStep, keepNonempty, hl, hne]
  · intro l hl hne
    simp [notesStep, keepNonempty, hl, hne]
  · intro l hl hne
    simp [notesStep, keepNonempty, hl, hne]
  · intro hcl
    cases hu : item.unclassified_notes <;> simp [notesStep, hcl, hu]

/-- C7 witness: the spec's classified case — `top` kept, empty
`middle`/`base` dropped, non-empty `unclassified_notes` discarded. -/
theorem claim_C7_witness :
    d7w.notes.top = some [bergamotNote] ∧ d7w.notes.unclassified = none :=
  ⟨(claim_C7 u7w item7w d7w (by decide)).1 [bergamotNote] (by decide) (by decide),
   (claim_C7 u7w item7w d7w (by decide)).2.2.2 (by decide)⟩

/-- C9: `house` and `perfume_name` are present together or absent
together, and when the URL path does not match the `/perfume/...` shape
with at least 4 segments, both are absent and the title is left
untouched even if `sex` and `title` are present. -/
theorem claim_C9 (url : Url) (item : RawItem) (d : DomainItem)
    (hd : normalizeItem url item = Except.ok d) :
    (d.house.isSome ↔ d.perfume_name.isSome) ∧
    (urlMatched url.decodedPath = false →
      d.house = none ∧ d.perfume_name = none ∧ d.title = item.title) := by
  rcases (normalizeItem_ok_iff url item d).1 hd with ⟨acc, hacc, rfl⟩
  cases hm : urlMatched url.decodedPath with
  | true =>
    constructor
    · simp [assemble, hm]
    · intro hf
      simp [hm] at hf
  | false =>
    constructor
    · simp [assemble, hm]
    · intro _
      simp [assemble, hm]

/-- C9 witness: a non-matching URL with `sex` and `title` present
leaves `house`/`perfume_name` absent and the title untouched. -/
theorem claim_C9_witness :
    d9w.house = none ∧ d9w.perfume_name = none ∧ d9w.title = item9w.title :=
  (claim_C9 u9w item9w d9w (by decide)).2 (by decide)

/-- C10: for every source URL whose decoded path matches the
`/perfume/...` shape and whose segment 3, after truncation at the first
`.html`, splits on `-` into a single entirely-numeric token, the
normalizer sets `perfume_name` to the empty string — present but empty,
not absent — while `house` is still derived normally. -/
theorem claim_C10 (url : Url) (item : RawItem) (d : DomainItem) (tok : Str)
    (hd : normalizeItem url item = Except.ok d)
    (hm : urlMatched url.decodedPath = true)
    (htok : splitOnChar '-'
      (takeUntilSub (".html".toList) ((pathParts url.decodedPath).getD 3 [])) = [tok])
    (hne : tok ≠ []) (hdig : ∀ c ∈ tok, c.isDigit = true) :
    d.perfume_name = some [] ∧
    d.house = some (spec_house ((pathParts url.decodedPath).getD 2 [])) := by
  rcases (normalizeItem_ok_iff url item d).1 hd with ⟨acc, hacc, rfl⟩
  constructor
  · have hnum : pyIsDigit tok = true := (pyIsDigit_iff tok).2 ⟨hne, hdig⟩
    have hpn : perfumeNameOf ((pathParts url.decodedPath).getD 3 []) = [] := by
      simp only [perfumeNameOf]
      rw [htok]
      simp [hnum, List.intercalate]
    simp [assemble, hm]
    simpa using hpn
  · rw [← houseOf_eq_spec]
    simp [assemble, hm]

/-- C10 witness: path `/perfume/Some-House/590.html` yields
`perfume_name == ""` and `house == "Some House"`. -/
theorem claim_C10_witness :
    d10w.perfume_name = some [] ∧
    d10w.house = some (spec_house ((pathParts u10w.decodedPath).getD 2 [])) :=
  claim_C10 u10w rawEmpty d10w ("590".toList) (by decide) (by decide) (by decide)
    (by decide) (by decide)
